import Mathlib

/-!
Verification of `profiling/remote/eventlet.py` (a remote-profiling server
adapter built on eventlet).  The Python source is shallowly embedded below:
pure helpers become Lean functions, exception-raising calls return a
`PyResult`, the module-level effects of constructors become explicit effect
lists, and the concurrency around the sampling gate becomes a labelled
transition system whose traces we quantify over.
-/

namespace ProfilingEventlet

/-- Kinds of Python exceptions relevant to the module: `socket.error`
raised by transport calls, `AssertionError` raised by `assert`,
`NameError` raised when a global name fails to resolve, and further
kinds used to exercise the non-contained paths of `wrap_errors`. -/
inductive ExcKind where
  | socketError
  | assertionError
  | nameError
  | valueError
  | keyboardInterrupt
  | otherExc (n : Nat)
deriving DecidableEq, Repr

/-- Outcome of evaluating one Python call: either a normal return of a
value or a raised exception propagating to the caller. -/
inductive PyResult (α : Type) where
  | ok (v : α)
  | raised (e : ExcKind)
deriving DecidableEq, Repr

/-- A Python function object as the module uses it: a callable body that
may raise, plus its `str(...)` and `repr(...)` renderings. -/
structure PyFunc (γ α : Type) where
  call : γ → PyResult α
  strRep : String
  reprRep : String

/-- The `wrap_errors` class of the source: stores the tuple of contained
exception kinds (`self.errors`, modelled as a list of kinds, membership
standing for the `isinstance` test of `except self.errors`) and the
wrapped function (`self.func`). -/
structure WrapErrors (γ α : Type) where
  errors : List ExcKind
  func : PyFunc γ α

/-- `wrap_errors.__call__`: run `self.func`; a normal return is passed
through, an exception whose kind is contained in `self.errors` is
returned as a value (`inr`), and any other exception keeps propagating. -/
def WrapErrors.call (w : WrapErrors γ α) (x : γ) : PyResult (α ⊕ ExcKind) :=
  match w.func.call x with
  | .ok v => .ok (.inl v)
  | .raised e => if e ∈ w.errors then .ok (.inr e) else .raised e

/-- `wrap_errors.__str__`: delegates to `str(self.func)`. -/
def WrapErrors.toStr (w : WrapErrors γ α) : String :=
  w.func.strRep

/-- `wrap_errors.__repr__`: delegates to `repr(self.func)`. -/
def WrapErrors.toReprStr (w : WrapErrors γ α) : String :=
  w.func.reprRep

/-! ## `StreamServer.__init__`: assertions, bind, handler choice -/

/-- `listen_info`, the `(host, port)` pair passed to the constructor. -/
structure ListenInfo where
  host : String
  port : Nat
deriving DecidableEq, Repr

/-- The two socket address families the constructor can select:
`socket.AF_INET6` when the host literal contains a colon, and the
default family of `eventlet.listen` (IPv4) otherwise. -/
inductive AddrFamily where
  | afInet
  | afInet6
deriving DecidableEq, Repr

/-- `':' in listen_info[0]`: whether the host string contains a colon. -/
def hostHasColon (h : String) : Bool :=
  h.toList.contains ':'

/-- Observable constructor effects: each `eventlet.listen` call binds one
listening endpoint with the chosen address family. -/
inductive InitEffect where
  | bind (info : ListenInfo) (family : AddrFamily)
deriving DecidableEq, Repr

/-- The handler `StreamServer.__init__` installs as `self.handle`: the
raw `handle` argument when no `ssl_args` were given, or the local
`wrap_and_handle` closure (capturing the nonempty `ssl_args`) otherwise. -/
inductive HandlerChoice where
  | direct
  | wrapAndHandle (sslArgs : List (String × String))
deriving DecidableEq, Repr

/-- `StreamServer.__init__`, as the list of bind effects it performs and
its outcome: the two `assert` statements run first (raising
`AssertionError` before any endpoint is bound), then exactly one
`eventlet.listen` call fires, with `family=socket.AF_INET6` iff the host
contains a colon, and finally `if ssl_args:` selects which handler is
installed.  `sslArgs` models the `**ssl_args` keyword arguments. -/
def streamServerInit (listenInfo : ListenInfo) (backlog : Option Nat)
    (spawnArg : String) (sslArgs : List (String × String)) :
    List InitEffect × PyResult HandlerChoice :=
  if backlog ≠ none then ([], .raised .assertionError)
  else if spawnArg ≠ "default" then ([], .raised .assertionError)
  else
    let binds : List InitEffect :=
      if hostHasColon listenInfo.host then [.bind listenInfo .afInet6]
      else [.bind listenInfo .afInet]
    if sslArgs.isEmpty then (binds, .ok .direct)
    else (binds, .ok (.wrapAndHandle sslArgs))

/-! ## Module-level name resolution (for `spawn` and `ssl`)

`serve_forever` calls a bare `spawn(...)` and `wrap_and_handle` calls
`ssl.wrap_socket(...)`.  Neither name is a local, a closure variable, a
module global or a builtin, so CPython raises `NameError` at the call
site.  We embed the module's global namespace and the Python builtin
namespace explicitly and model the lookup. -/

/-- The names bound at module level in `profiling/remote/eventlet.py`:
`absolute_import` (from the `__future__` import), `socket`, `eventlet`,
`Semaphore`, the four names of the relative import, `__all__`, the three
class statements, and the implicit module dunders. -/
def moduleGlobals : List String :=
  ["absolute_import", "socket", "eventlet", "Semaphore",
   "INTERVAL", "LOG", "PICKLE_PROTOCOL", "ProfilingServer",
   "__all__", "StreamServer", "wrap_errors", "EventletProfilingServer",
   "__name__", "__doc__", "__file__", "__package__", "__builtins__"]

/-- The Python 2.7 builtin namespace (the module is Python 2: it uses
`except self.errors, ex` syntax).  Neither `spawn` nor `ssl` is in it. -/
def pythonBuiltins : List String :=
  ["ArithmeticError", "AssertionError", "AttributeError", "BaseException",
   "BufferError", "BytesWarning", "DeprecationWarning", "EOFError",
   "Ellipsis", "EnvironmentError", "Exception", "False",
   "FloatingPointError", "FutureWarning", "GeneratorExit", "IOError",
   "ImportError", "ImportWarning", "IndentationError", "IndexError",
   "KeyError", "KeyboardInterrupt", "LookupError", "MemoryError",
   "NameError", "None", "NotImplemented", "NotImplementedError",
   "OSError", "OverflowError", "PendingDeprecationWarning",
   "ReferenceError", "RuntimeError", "RuntimeWarning", "StandardError",
   "StopIteration", "SyntaxError", "SyntaxWarning", "SystemError",
   "SystemExit", "TabError", "True", "TypeError", "UnboundLocalError",
   "UnicodeDecodeError", "UnicodeEncodeError", "UnicodeError",
   "UnicodeTranslateError", "UnicodeWarning", "UserWarning", "ValueError",
   "Warning", "ZeroDivisionError", "__debug__", "__doc__", "__import__",
   "__name__", "__package__", "abs", "all", "any", "apply", "basestring",
   "bin", "bool", "buffer", "bytearray", "bytes", "callable", "chr",
   "classmethod", "cmp", "coerce", "compile", "complex", "copyright",
   "credits", "delattr", "dict", "dir", "divmod", "enumerate", "eval",
   "execfile", "exit", "file", "filter", "float", "format", "frozenset",
   "getattr", "globals", "hasattr", "hash", "help", "hex", "id", "input",
   "intern", "int", "isinstance", "issubclass", "iter", "len", "license",
   "list", "locals", "long", "map", "max", "memoryview", "min", "next",
   "object", "oct", "open", "ord", "pow", "property", "quit", "range",
   "raw_input", "reduce", "reload", "repr", "reversed", "round", "set",
   "setattr", "slice", "sorted", "staticmethod", "str", "sum", "super",
   "tuple", "type", "unichr", "unicode", "vars", "xrange", "zip"]

/-- Whether a bare name used inside this module's function bodies (one
that is neither a local nor a closure variable) resolves: it must be a
module global or a builtin; otherwise evaluating it raises `NameError`. -/
def resolvesGlobally (n : String) : Bool :=
  moduleGlobals.contains n || pythonBuiltins.contains n

/-! ## Per-connection handling (`wrap_and_handle` / `serve_forever`) -/

/-- What happens to one accepted connection inside the handler
`StreamServer` installed at construction. -/
inductive HandleOutcome where
  | handledDirect
  | handledWrapped
  | handlerRaised (e : ExcKind)
deriving DecidableEq, Repr

/-- The installed handler applied to one accepted raw connection.  The
raw `handle` passes the raw socket on directly.  `wrap_and_handle`
evaluates `ssl.wrap_socket(sock, **ssl_args)` before calling `handle`:
the bare name `ssl` (not a local and not a closure variable of the
constructor) must resolve through the global/builtin namespaces or the
call raises `NameError`. -/
def streamServerHandle : HandlerChoice → HandleOutcome
  | .direct => .handledDirect
  | .wrapAndHandle _ =>
    if resolvesGlobally "ssl" then .handledWrapped
    else .handlerRaised .nameError

/-- Outcome of one iteration of the `serve_forever` accept loop. -/
inductive AcceptStep where
  | spawnedHandler
  | loopRaised (e : ExcKind)
deriving DecidableEq, Repr

/-- One iteration of `StreamServer.serve_forever` after `accept()`
returns a connection: it evaluates `spawn(self.handle, sock, addr)`.  The
bare name `spawn` must resolve through the global/builtin namespaces; if
it does, a concurrent handler task is spawned, otherwise the loop itself
raises `NameError`. -/
def serveForeverStep : AcceptStep :=
  if resolvesGlobally "spawn" then .spawnedHandler
  else .loopRaised .nameError

/-! ## `EventletProfilingServer._start_watching`: the disconnection probe -/

/-- Behaviour of the client socket under the probe's `sock.recv(1)`: it
returns some bytes (the empty list models a clean close returning zero
bytes) or raises an exception. -/
inductive RecvOutcome where
  | bytes (data : List Nat)
  | raises (e : ExcKind)
deriving DecidableEq, Repr

/-- `sock.recv` as a Python function object, parameterised by the
socket's behaviour; the probe calls it with `maxBytes = 1`. -/
def sockRecv (behaviour : RecvOutcome) : PyFunc Nat (List Nat) :=
  { call := fun _ =>
      match behaviour with
      | .bytes d => .ok d
      | .raises e => .raised e,
    strRep := "<built-in method recv>",
    reprRep := "<built-in method recv>" }

/-- The record of what `_start_watching` spawns: the probe greenlet runs
`wrap_errors(socket.error, sock.recv)` applied to `1`, and
`.link(disconnected)` attaches the disconnection callback. -/
structure WatchSpawn where
  containedErrors : List ExcKind
  recvArg : Nat
  callbackLinked : Bool
deriving DecidableEq, Repr

/-- `_start_watching`'s spawn: `eventlet.spawn(recv, 1).link(disconnected)`
with `recv = wrap_errors(socket.error, sock.recv)`. -/
def startWatching : WatchSpawn :=
  { containedErrors := [.socketError], recvArg := 1, callbackLinked := true }

/-- The completed result of the probe greenlet for a given socket
behaviour: the wrapped `recv` applied to `1`. -/
def watchProbeResult (behaviour : RecvOutcome) : PyResult (List Nat ⊕ ExcKind) :=
  WrapErrors.call
    { errors := startWatching.containedErrors, func := sockRecv behaviour }
    startWatching.recvArg

/-- Whether the linked `disconnected` callback fires for a given socket
behaviour.  eventlet's `GreenThread.link` invokes the callback when the
greenlet finishes, whether it finished with a value or with an
exception, so it fires exactly when a callback was linked and the probe
call completes (which, `recv` being modelled as total over `RecvOutcome`,
it always does). -/
def disconnectedFires (behaviour : RecvOutcome) : Bool :=
  startWatching.callbackLinked &&
    (match watchProbeResult behaviour with
     | .ok _ => true
     | .raised _ => true)

/-! ## `profile_periodically`: the `with self.lock:` block -/

/-- Primitive semaphore events on the server's gate (`self.lock`). -/
inductive LockEvent where
  | acquire
  | release
deriving DecidableEq, Repr

/-- How the `for __ in self.profiling(): eventlet.sleep(self.interval)`
body of the `with` block can end: the `profiling()` iterator is exhausted
(the registry went empty), or an exception propagates out of an
iteration step. -/
inductive BodyOutcome where
  | finished
  | raises (e : ExcKind)
deriving DecidableEq, Repr

/-- The loop body itself performs no gate events; it ends with the given
outcome. -/
def profilingBody : BodyOutcome → List LockEvent × PyResult Unit
  | .finished => ([], .ok ())
  | .raises e => ([], .raised e)

/-- Python `with lock:` semantics on an eventlet `Semaphore`:
`__enter__` acquires on entry and `__exit__` releases on every exit of
the block, both when the body completes normally and when it unwinds
with an exception (which keeps propagating). -/
def withLock (body : List LockEvent × PyResult Unit) :
    List LockEvent × PyResult Unit :=
  ([LockEvent.acquire] ++ body.1 ++ [LockEvent.release], body.2)

/-- `EventletProfilingServer.profile_periodically`: the whole session is
one `with self.lock:` block around the profiling loop. -/
def profilePeriodically (outcome : BodyOutcome) :
    List LockEvent × PyResult Unit :=
  withLock (profilingBody outcome)

/-- Net number of gate holds after a trace of lock events: acquires
minus releases (as an integer). -/
def gateHeldAfter (evts : List LockEvent) : Int :=
  evts.foldl (fun n e => match e with | .acquire => n + 1 | .release => n - 1) 0

/-! ## The single-session invariant (`self.lock = Semaphore()`)

`EventletProfilingServer.__init__` creates one shared
`eventlet.semaphore.Semaphore()` whose initial counter is 1.  Every
`profile_periodically` greenlet acquires it before entering the loop and
releases it when the session ends.  We model the system as a labelled
transition system: sessions are spawned, acquire the gate only when its
counter is positive, and release it when they finish. -/

/-- Phase of one `profile_periodically` greenlet: spawned and blocked in
`self.lock.acquire()`, inside the loop body holding the gate, or
terminated. -/
inductive SessionPhase where
  | waiting
  | inBody
  | done
deriving DecidableEq, Repr

/-- Shared state: the semaphore's counter and the phase of every session
spawned so far (session `i` is position `i` of the list). -/
structure ServerState where
  gate : Nat
  phases : List SessionPhase
deriving DecidableEq, Repr

/-- Session-lifecycle events: `spawnSession` models
`eventlet.spawn(self.profile_periodically)` creating a new waiting
session; `acquireGate i` models session `i`'s blocking
`self.lock.acquire()` completing, which the semaphore allows only while
its counter is positive; `finishSession i` models session `i`'s `with`
block exiting, which releases the gate. -/
inductive SessionEvent where
  | spawnSession
  | acquireGate (i : Nat)
  | finishSession (i : Nat)
deriving DecidableEq, Repr

/-- One transition of the system; events whose precondition does not
hold (acquiring with a zero counter, or from the wrong phase) leave the
state unchanged: the semaphore keeps such a session blocked. -/
def sessionStep (s : ServerState) : SessionEvent → ServerState
  | .spawnSession => { s with phases := s.phases ++ [.waiting] }
  | .acquireGate i =>
    match s.phases.get? i, s.gate with
    | some .waiting, g + 1 => { gate := g, phases := s.phases.set i .inBody }
    | _, _ => s
  | .finishSession i =>
    match s.phases.get? i with
    | some .inBody => { gate := s.gate + 1, phases := s.phases.set i .done }
    | _ => s

/-- The initial state: `Semaphore()` has counter 1 and no session has
been spawned. -/
def initialState : ServerState :=
  { gate := 1, phases := [] }

/-- Run a finite trace of session events from the initial state. -/
def runEvents (evts : List SessionEvent) : ServerState :=
  evts.foldl sessionStep initialState

/-- Number of sessions currently inside the loop body (holding the gate). -/
def activeSessions (s : ServerState) : Nat :=
  s.phases.countP (· == SessionPhase.inBody)

/-! ## Concrete function objects used to evaluate the wrapper -/

/-- A concrete function object that always returns `7`. -/
def constSeven : PyFunc Nat Nat :=
  ⟨fun _ => .ok 7, "seven", "seven"⟩

/-- A concrete function object that always raises `socket.error`. -/
def alwaysSocketError : PyFunc Nat Nat :=
  ⟨fun _ => .raised .socketError, "probe", "probe"⟩

/-- A concrete function object that always raises `ValueError`. -/
def alwaysValueError : PyFunc Nat Nat :=
  ⟨fun _ => .raised .valueError, "bad", "bad"⟩

/-! ## Theorems -/

/-- Gate accounting: one step preserves `gate + activeSessions = 1`. -/
theorem sessionStep_gate_inv (s : ServerState) (e : SessionEvent)
    (h : s.gate + activeSessions s = 1) :
    (sessionStep s e).gate + activeSessions (sessionStep s e) = 1 := by
  cases e with
  | spawnSession =>
    simpa [sessionStep, activeSessions, List.countP_append] using h
  | acquireGate i =>
    simp only [sessionStep]
    split
    next g hget hgate =>
      rw [List.get?_eq_getElem?] at hget
      obtain ⟨hlt, hel⟩ := List.getElem?_eq_some.mp hget
      simp only [activeSessions] at h ⊢
      rw [hgate] at h
      rw [List.countP_set _ _ _ _ hlt, hel,
        show (if (SessionPhase.waiting == SessionPhase.inBody) = true
          then 1 else 0) = 0 from rfl,
        show (if (SessionPhase.inBody == SessionPhase.inBody) = true
          then 1 else 0) = 1 from rfl]
      omega
    next => exact h
  | finishSession i =>
    simp only [sessionStep]
    split
    next hget =>
      rw [List.get?_eq_getElem?] at hget
      obtain ⟨hlt, hel⟩ := List.getElem?_eq_some.mp hget
      have hpos : 0 < s.phases.countP (· == SessionPhase.inBody) :=
        List.countP_pos_iff.mpr ⟨SessionPhase.inBody, hel ▸ List.getElem_mem hlt, rfl⟩
      simp only [activeSessions] at h hpos ⊢
      rw [List.countP_set _ _ _ _ hlt, hel,
        show (if (SessionPhase.inBody == SessionPhase.inBody) = true
          then 1 else 0) = 1 from rfl,
        show (if (SessionPhase.done == SessionPhase.inBody) = true
          then 1 else 0) = 0 from rfl]
      omega
    next => exact h

/-- Gate accounting along any trace from the initial state. -/
theorem runEvents_gate_inv (evts : List SessionEvent) :
    (runEvents evts).gate + activeSessions (runEvents evts) = 1 := by
  suffices h : ∀ s : ServerState, s.gate + activeSessions s = 1 →
      (evts.foldl sessionStep s).gate + activeSessions (evts.foldl sessionStep s) = 1 by
    exact h initialState rfl
  induction evts with
  | nil => intro s hs; exact hs
  | cons e rest ih =>
    intro s hs
    exact ih (sessionStep s e) (sessionStep_gate_inv s e hs)

/-- Claim C1: at most one sampling session (one execution of
`profile_periodically`'s loop body) is active at any time: along every
trace of session events at most one session is inside the loop body, and
while one is, any attempt by another session to acquire the gate leaves
the state unchanged (the second session cannot enter until the holder
releases). -/
theorem claim_C1_single_session (evts : List SessionEvent) :
    activeSessions (runEvents evts) ≤ 1 ∧
    ∀ i, activeSessions (runEvents evts) = 1 →
      sessionStep (runEvents evts) (SessionEvent.acquireGate i) = runEvents evts := by
  have hinv := runEvents_gate_inv evts
  refine ⟨by omega, fun i hone => ?_⟩
  have hg : (runEvents evts).gate = 0 := by omega
  simp only [sessionStep]
  split
  next g hget hgate => rw [hg] at hgate; exact absurd hgate (by omega)
  next => rfl

/-- Witness for C1 at a concrete trace: spawn a session, let it acquire
the gate, spawn a second session; the second session's acquire attempt
does not change the state. -/
theorem claim_C1_single_session_witness :
    activeSessions (runEvents
      [SessionEvent.spawnSession, SessionEvent.acquireGate 0,
       SessionEvent.spawnSession]) ≤ 1 ∧
    sessionStep (runEvents
      [SessionEvent.spawnSession, SessionEvent.acquireGate 0,
       SessionEvent.spawnSession]) (SessionEvent.acquireGate 1) =
      runEvents
        [SessionEvent.spawnSession, SessionEvent.acquireGate 0,
         SessionEvent.spawnSession] := by
  have h := claim_C1_single_session
    [SessionEvent.spawnSession, SessionEvent.acquireGate 0,
     SessionEvent.spawnSession]
  exact ⟨h.1, h.2 1 (by decide)⟩

/-- Claim C2: for every function, declared exception set and argument,
the `wrap_errors` wrapper returns the function's result unchanged when it
returns normally, and returns the raised exception as an ordinary value
when the exception's kind is in the declared set. -/
theorem claim_C2_wrapper_contains {γ α : Type} (errors : List ExcKind)
    (f : PyFunc γ α) (x : γ) :
    (∀ v, f.call x = .ok v →
      (WrapErrors.mk errors f).call x = .ok (.inl v)) ∧
    (∀ e, f.call x = .raised e → e ∈ errors →
      (WrapErrors.mk errors f).call x = .ok (.inr e)) := by
  constructor
  · intro v hv
    simp [WrapErrors.call, hv]
  · intro e he hmem
    simp [WrapErrors.call, he, hmem]

/-- Witness for C2: the wrapper passes `7` through for a normally
returning function, and returns the `socket.error` raised by
`alwaysSocketError` as a value. -/
theorem claim_C2_wrapper_contains_witness :
    (WrapErrors.mk [ExcKind.socketError] constSeven).call 0 =
      .ok (.inl 7) ∧
    (WrapErrors.mk [ExcKind.socketError] alwaysSocketError).call 0 =
      .ok (.inr .socketError) :=
  ⟨(claim_C2_wrapper_contains [ExcKind.socketError] constSeven 0).1 7 rfl,
   (claim_C2_wrapper_contains [ExcKind.socketError] alwaysSocketError 0).2
     .socketError rfl (by decide)⟩

/-- Claim C3: an exception whose kind is outside the declared set keeps
propagating out of the `wrap_errors` wrapper instead of being returned. -/
theorem claim_C3_wrapper_propagates {γ α : Type} (errors : List ExcKind)
    (f : PyFunc γ α) (x : γ) (e : ExcKind)
    (he : f.call x = .raised e) (hout : e ∉ errors) :
    (WrapErrors.mk errors f).call x = .raised e := by
  simp [WrapErrors.call, he, hout]

/-- Witness for C3: a `ValueError` raised under a wrapper declared for
`socket.error` only still propagates. -/
theorem claim_C3_wrapper_propagates_witness :
    (WrapErrors.mk [ExcKind.socketError] alwaysValueError).call 0 =
      .raised .valueError :=
  claim_C3_wrapper_propagates [ExcKind.socketError] alwaysValueError 0
    .valueError rfl (by decide)

/-- Claim C4 (code bug): `serve_forever` evaluates the bare name `spawn`,
which is neither a module global nor a builtin, so the first accepted
connection makes the accept loop itself raise `NameError` instead of
spawning an independent handler. -/
theorem claim_C4_accept_loop_raises :
    resolvesGlobally "spawn" = false ∧
    serveForeverStep = AcceptStep.loopRaised ExcKind.nameError :=
  ⟨rfl, rfl⟩

/-- Claim C5 (code bug): with transport-security arguments supplied the
constructor installs `wrap_and_handle`, but that handler evaluates the
unresolvable bare name `ssl` and raises `NameError` on every accepted
connection instead of wrapping the socket; without such arguments the raw
socket is handled directly. -/
theorem claim_C5_ssl_wrap_raises :
    resolvesGlobally "ssl" = false ∧
    (streamServerInit ⟨"127.0.0.1", 8912⟩ none "default"
        [("certfile", "cert.pem")]).2 =
      PyResult.ok (HandlerChoice.wrapAndHandle [("certfile", "cert.pem")]) ∧
    streamServerHandle (HandlerChoice.wrapAndHandle [("certfile", "cert.pem")]) =
      HandleOutcome.handlerRaised ExcKind.nameError ∧
    (streamServerInit ⟨"127.0.0.1", 8912⟩ none "default" []).2 =
      PyResult.ok HandlerChoice.direct ∧
    streamServerHandle HandlerChoice.direct = HandleOutcome.handledDirect :=
  ⟨rfl, rfl, rfl, rfl, rfl⟩

/-- Claim C6: for every listen address (with the default `backlog` and
`spawn` arguments) construction performs exactly one bind, whose family
is `AF_INET6` when the host string contains a colon and the default IPv4
family otherwise. -/
theorem claim_C6_address_family (info : ListenInfo)
    (sslArgs : List (String × String)) :
    ∃ fam : AddrFamily,
      (streamServerInit info none "default" sslArgs).1 =
        [InitEffect.bind info fam] ∧
      (hostHasColon info.host = true → fam = .afInet6) ∧
      (hostHasColon info.host = false → fam = .afInet) := by
  by_cases hc : hostHasColon info.host = true
  · refine ⟨.afInet6, ?_, fun _ => rfl, fun hf => by rw [hc] at hf; cases hf⟩
    by_cases hs : sslArgs.isEmpty <;> simp [streamServerInit, hc, hs]
  · refine ⟨.afInet, ?_, fun ht => absurd ht hc, fun _ => rfl⟩
    by_cases hs : sslArgs.isEmpty <;> simp [streamServerInit, hc, hs]

/-- Witness for C6: `"::1"` (contains a colon) binds with `AF_INET6`,
`"127.0.0.1"` binds with the default IPv4 family. -/
theorem claim_C6_address_family_witness :
    (streamServerInit ⟨"::1", 8912⟩ none "default" []).1 =
      [InitEffect.bind ⟨"::1", 8912⟩ AddrFamily.afInet6] ∧
    (streamServerInit ⟨"127.0.0.1", 8912⟩ none "default" []).1 =
      [InitEffect.bind ⟨"127.0.0.1", 8912⟩ AddrFamily.afInet] := by
  constructor
  · obtain ⟨fam, h1, h2, _⟩ := claim_C6_address_family ⟨"::1", 8912⟩ []
    rwa [h2 (by decide)] at h1
  · obtain ⟨fam, h1, _, h3⟩ := claim_C6_address_family ⟨"127.0.0.1", 8912⟩ []
    rwa [h3 (by decide)] at h1

/-- Claim C7: `_start_watching` spawns a probe whose call is the one-byte
`recv` wrapped with `socket.error` contained and a disconnection callback
linked; on a clean close (zero bytes), on a contained transport error
(returned as a value, not raised), and on unexpected data, the probe
completes and the disconnection callback fires. -/
theorem claim_C7_watcher_fires (d : List Nat) :
    startWatching.containedErrors = [ExcKind.socketError] ∧
    startWatching.recvArg = 1 ∧
    startWatching.callbackLinked = true ∧
    watchProbeResult (.bytes []) = .ok (.inl []) ∧
    watchProbeResult (.raises .socketError) = .ok (.inr .socketError) ∧
    watchProbeResult (.bytes d) = .ok (.inl d) ∧
    disconnectedFires (.bytes []) = true ∧
    disconnectedFires (.raises .socketError) = true ∧
    disconnectedFires (.bytes d) = true :=
  ⟨rfl, rfl, rfl, rfl, rfl, rfl, rfl, rfl, rfl⟩

/-- Claim C8: whether the profiling loop body finishes normally or an
exception propagates out of it, `profile_periodically`'s `with self.lock:`
block releases the gate (the lock trace nets to zero and is exactly
acquire-then-release), while the body's outcome itself passes through
unchanged. -/
theorem claim_C8_gate_released (outcome : BodyOutcome) :
    gateHeldAfter (profilePeriodically outcome).1 = 0 ∧
    (profilePeriodically outcome).1 = [LockEvent.acquire, LockEvent.release] ∧
    (profilePeriodically outcome).2 = (profilingBody outcome).2 := by
  cases outcome <;> exact ⟨rfl, rfl, rfl⟩

/-- Claim C9: `wrap_errors.__str__` and `wrap_errors.__repr__` delegate
to the wrapped function, so the wrapper's string and representation forms
equal the original function's. -/
theorem claim_C9_str_repr_delegate {γ α : Type} (errors : List ExcKind)
    (f : PyFunc γ α) :
    (WrapErrors.mk errors f).toStr = f.strRep ∧
    (WrapErrors.mk errors f).toReprStr = f.reprRep :=
  ⟨rfl, rfl⟩

/-- Claim C10: `StreamServer.__init__` requires `backlog is None` and
`spawn == 'default'`; any other value of either argument raises
`AssertionError` with no bind effect performed, so no listener is ever
created under an unsupported configuration. -/
theorem claim_C10_asserts_guard (info : ListenInfo) (backlog : Option Nat)
    (spawnArg : String) (sslArgs : List (String × String))
    (h : backlog ≠ none ∨ spawnArg ≠ "default") :
    streamServerInit info backlog spawnArg sslArgs =
      ([], .raised .assertionError) := by
  rcases h with hb | hs
  · simp [streamServerInit, hb]
  · by_cases hb : backlog = none <;> simp [streamServerInit, hb, hs]

/-- Witness for C10: a non-`None` backlog, and a non-`'default'` spawn
argument, each abort construction with `AssertionError` and no bind. -/
theorem claim_C10_asserts_guard_witness :
    streamServerInit ⟨"127.0.0.1", 8912⟩ (some 5) "default" [] =
      ([], .raised .assertionError) ∧
    streamServerInit ⟨"127.0.0.1", 8912⟩ none "eventlet" [] =
      ([], .raised .assertionError) :=
  ⟨claim_C10_asserts_guard ⟨"127.0.0.1", 8912⟩ (some 5) "default" []
     (Or.inl (by decide)),
   claim_C10_asserts_guard ⟨"127.0.0.1", 8912⟩ none "eventlet" []
     (Or.inr (by decide))⟩

end ProfilingEventlet
